import Mathlib

/-!
Shallow embedding of the ten MongoDB aggregation pipelines of
`src/query/query_it_tools_2_copy.js` over in-memory lists of typed rows.

Numbers are modelled as exact rationals; a field that can be null or
missing has type `Option ℚ`.  The aggregation-operator semantics follow
the MongoDB server: the accumulators `$sum`, `$avg` and `$max` skip null
and missing values; `$subtract` and `$multiply` return null when an
operand is null or missing; `$divide` returns null when an operand is
null or missing, but raises an error (aborting the whole aggregation)
when both operands are numeric and the denominator is zero; `$round`
rounds half to even; `$mergeObjects` ignores a null or missing operand;
`$unwind` of an empty array drops the document; `$lookup` + `$unwind`
acts as an inner join.
-/

namespace EnergyQueries

/-- Banker s rounding of a rational to an integer, as the `$round`
aggregation operator rounds (half to even). -/
def roundHalfEven (q : ℚ) : ℤ :=
  if q - ⌊q⌋ < 1/2 then ⌊q⌋
  else if 1/2 < q - ⌊q⌋ then ⌊q⌋ + 1
  else if ⌊q⌋ % 2 = 0 then ⌊q⌋ else ⌊q⌋ + 1

/-- The operator `$round [q, p]`: round to `p` decimal places, half to even. -/
def roundTo (p : ℕ) (q : ℚ) : ℚ :=
  (roundHalfEven (q * 10 ^ p) : ℚ) / 10 ^ p

/-- The `$sum` accumulator: adds the numeric values of the field,
skipping null and missing occurrences. -/
def msum : List (Option ℚ) → ℚ
  | [] => 0
  | none :: vs => msum vs
  | some q :: vs => q + msum vs

/-- Number of numeric (non-null) occurrences of a field. -/
def mcount : List (Option ℚ) → ℕ
  | [] => 0
  | none :: vs => mcount vs
  | some _ :: vs => 1 + mcount vs

/-- The `$avg` accumulator: the average of the numeric values, null when
there are none. -/
def mavg (vs : List (Option ℚ)) : Option ℚ :=
  if mcount vs = 0 then none else some (msum vs / mcount vs)

/-- The `$max` accumulator: the largest numeric value, null when there is
none. -/
def mmax : List (Option ℚ) → Option ℚ
  | [] => none
  | none :: vs => mmax vs
  | some q :: vs =>
    match mmax vs with
    | none => some q
    | some m => some (max q m)

/-- The `$subtract` operator: null when an operand is null or missing. -/
def msub : Option ℚ → Option ℚ → Option ℚ
  | some a, some b => some (a - b)
  | _, _ => none

/-- The error message of a `$divide` whose numeric denominator is zero. -/
def divideByZeroMsg : String := "cant $divide by zero"

/-- The `$divide` operator: null when an operand is null or missing
(checked first by the server), an error when both operands are numeric
and the denominator is zero. -/
def mdiv : Option ℚ → Option ℚ → Except String (Option ℚ)
  | some a, some b =>
    if b = 0 then Except.error divideByZeroMsg else Except.ok (some (a / b))
  | _, _ => Except.ok none

/-- BSON comparison on a possibly-null number: null orders below every
number. `bsonLe a b` says `a` sorts at or before `b` ascending. -/
def bsonLe : Option ℚ → Option ℚ → Bool
  | none, _ => true
  | some _, none => false
  | some x, some y => decide (x ≤ y)

/-- Stable insertion, the auxiliary of the `$sort` stage model. -/
def insertD {α : Type} (le : α → α → Bool) (x : α) : List α → List α
  | [] => [x]
  | y :: ys => if le x y then x :: y :: ys else y :: insertD le x ys

/-- Stable insertion sort modelling a `$sort` stage; `le x y` means `x`
may stay before `y`. -/
def sortD {α : Type} (le : α → α → Bool) : List α → List α
  | [] => []
  | x :: xs => insertD le x (sortD le xs)

/-- Row-by-row evaluation of a projection that can raise: the first
error aborts the whole pipeline, as in the server. -/
def mapE {α β : Type} (f : α → Except String β) : List α → Except String (List β)
  | [] => Except.ok []
  | x :: xs =>
    match f x with
    | Except.error e => Except.error e
    | Except.ok y =>
      match mapE f xs with
      | Except.error e => Except.error e
      | Except.ok ys => Except.ok (y :: ys)

/-- The `$reduce` of QUERY 5 turning a list of strings into a
comma-separated string. -/
def csvConcat (l : List String) : String :=
  l.foldl (fun acc s => acc ++ (if acc = "" then "" else ", ") ++ s) ""

/-- Lower bound of the 5°-wide band of a coordinate in QUERY 5:
`floor (v / 5) * 5`. -/
def bandLower (v : ℚ) : ℤ := ⌊v / 5⌋ * 5

/-- Band label of a coordinate, `$concat` of the two bounds as strings. -/
def bandLabel (v : ℚ) : String :=
  toString (bandLower v) ++ "°–" ++ toString (bandLower v + 5) ++ "°"

theorem insertD_perm {α : Type} (le : α → α → Bool) (x : α) (l : List α) :
    (insertD le x l).Perm (x :: l) := by
  induction l with
  | nil => exact List.Perm.refl _
  | cons y ys ih =>
    simp only [insertD]
    split
    · exact List.Perm.refl _
    · exact (ih.cons y).trans (List.Perm.swap x y ys)

theorem sortD_perm {α : Type} (le : α → α → Bool) (l : List α) :
    (sortD le l).Perm l := by
  induction l with
  | nil => exact List.Perm.refl _
  | cons x xs ih => exact (insertD_perm le x (sortD le xs)).trans (ih.cons x)

theorem mem_sortD {α : Type} (le : α → α → Bool) (l : List α) (a : α) :
    a ∈ sortD le l ↔ a ∈ l :=
  (sortD_perm le l).mem_iff

theorem length_sortD {α : Type} (le : α → α → Bool) (l : List α) :
    (sortD le l).length = l.length :=
  (sortD_perm le l).length_eq

theorem mapE_congr {α β : Type} {f g : α → Except String β} {l : List α}
    (h : ∀ x ∈ l, f x = g x) : mapE f l = mapE g l := by
  induction l with
  | nil => rfl
  | cons x xs ih =>
    simp only [mapE]
    rw [h x (by simp), ih (fun y hy => h y (by simp [hy]))]

theorem mapE_pure {α β : Type} (g : α → β) (l : List α) :
    mapE (fun x => Except.ok (g x)) l = Except.ok (l.map g) := by
  induction l with
  | nil => rfl
  | cons x xs ih => simp only [mapE, ih, List.map]

theorem mapE_error {α β : Type} (f : α → Except String β) (M : String)
    (l : List α)
    (hall : ∀ x ∈ l, f x = Except.error M ∨ ∃ y, f x = Except.ok y)
    (hex : ∃ x ∈ l, f x = Except.error M) :
    mapE f l = Except.error M := by
  induction l with
  | nil => simp at hex
  | cons a as ih =>
    obtain ⟨x, hx, hfx⟩ := hex
    simp only [mapE]
    rcases List.mem_cons.mp hx with rfl | hmem
    · rw [hfx]
    · rcases hall a (by simp) with ha | ⟨y, hy⟩
      · rw [ha]
      · rw [hy, ih (fun z hz => hall z (by simp [hz])) ⟨x, hmem, hfx⟩]

theorem msum_map_eq {α : Type} (f : α → Option ℚ) (l : List α) :
    msum (l.map f) =
      ((l.filter (fun x => decide (f x ≠ none))).map (fun x => (f x).getD 0)).sum := by
  induction l with
  | nil => simp [msum]
  | cons x xs ih =>
    cases h : f x with
    | none => simpa [msum, h] using ih
    | some q => simpa [msum, h, List.filter_cons] using ih

theorem msum_filter_add {α : Type} (pred : α → Bool) (f : α → Option ℚ) (l : List α) :
    msum ((l.filter pred).map f) + msum ((l.filter (fun x => !(pred x))).map f)
      = msum (l.map f) := by
  induction l with
  | nil => simp [msum]
  | cons x xs ih =>
    cases hp : pred x <;> cases hf : f x <;>
      simp [List.filter_cons, hp, hf, msum] <;> linarith [ih]

theorem msum_groups {α κ : Type} [DecidableEq κ] (key : α → κ) (f : α → Option ℚ) :
    ∀ (K : List κ) (l : List α), K.Nodup → (∀ x ∈ l, key x ∈ K) →
      (K.map (fun k => msum ((l.filter (fun x => decide (key x = k))).map f))).sum
        = msum (l.map f) := by
  intro K
  induction K with
  | nil =>
    intro l _ h
    cases l with
    | nil => simp [msum]
    | cons x xs => exact absurd (h x (by simp)) (by simp)
  | cons k K ih =>
    intro l hnd hcov
    have hk : k ∉ K := (List.nodup_cons.mp hnd).1
    have htail : ∀ k2 ∈ K,
        l.filter (fun x => decide (key x = k2))
          = (l.filter (fun x => !(decide (key x = k)))).filter
              (fun x => decide (key x = k2)) := by
      intro k2 hk2
      rw [List.filter_filter]
      apply List.filter_congr
      intro x _
      have hne : k2 ≠ k := fun h => hk (h ▸ hk2)
      by_cases hx : key x = k2
      · have : ¬ key x = k := fun h => hk (h ▸ hx ▸ hk2)
        simp [hx, this, hne]
      · simp [hx]
    have hmap : K.map (fun k2 => msum ((l.filter (fun x => decide (key x = k2))).map f))
        = K.map (fun k2 => msum
            (((l.filter (fun x => !(decide (key x = k)))).filter
              (fun x => decide (key x = k2))).map f)) :=
      List.map_congr_left (fun k2 hk2 => by rw [htail k2 hk2])
    have hcov2 : ∀ x ∈ l.filter (fun x => !(decide (key x = k))), key x ∈ K := by
      intro x hx
      obtain ⟨hxl, hxk⟩ := List.mem_filter.mp hx
      have hxk2 : ¬ key x = k := by simpa using hxk
      rcases List.mem_cons.mp (hcov x hxl) with h | h
      · exact absurd h hxk2
      · exact h
    calc (((k :: K).map
          (fun k2 => msum ((l.filter (fun x => decide (key x = k2))).map f))).sum)
        = msum ((l.filter (fun x => decide (key x = k))).map f)
            + (K.map (fun k2 =>
                msum ((l.filter (fun x => decide (key x = k2))).map f))).sum := by
          simp
      _ = msum ((l.filter (fun x => decide (key x = k))).map f)
            + msum ((l.filter (fun x => !(decide (key x = k)))).map f) := by
          rw [hmap, ih (l.filter (fun x => !(decide (key x = k))))
            (List.nodup_cons.mp hnd).2 hcov2]
      _ = msum (l.map f) := msum_filter_add _ f l

/-- A record of the `power_plant_database_global` collection, with the
fields the queries touch.  `capacity_mw`, the coordinates and the two
generation fields may be null or missing. -/
structure Plant where
  country : String
  country_long : String
  name : String
  primary_fuel : String
  capacity_mw : Option ℚ
  latitude : Option ℚ
  longitude : Option ℚ
  generation_gwh_2017 : Option ℚ
  estimated_generation_gwh_2017 : Option ℚ
deriving DecidableEq

/-- QUERY 1 `$group` stage: one bucket per `primary_fuel` value, with the
row count and the `$sum` of `capacity_mw`. -/
def query1Groups (plants : List Plant) : List (String × ℕ × ℚ) :=
  ((plants.map (fun p => p.primary_fuel)).dedup).map (fun fuel =>
    let g := plants.filter (fun p => decide (p.primary_fuel = fuel))
    (fuel, g.length, msum (g.map (fun p => p.capacity_mw))))

/-- An output row of QUERY 1. -/
structure Q1Row where
  fuel : String
  number_of_plants : ℕ
  total_capacity_mw : ℚ
deriving DecidableEq

/-- QUERY 1: group by fuel type, `$round` the capacity total to one
decimal place, sort descending by it. -/
def query1 (plants : List Plant) : List Q1Row :=
  sortD (fun a b => decide (b.total_capacity_mw ≤ a.total_capacity_mw))
    ((query1Groups plants).map (fun g =>
      { fuel := g.1, number_of_plants := g.2.1,
        total_capacity_mw := roundTo 1 g.2.2 }))

/-- QUERY 2 `$match` + `$group` stages: nuclear plants only, one bucket
per `country_long` with the `$sum` of `capacity_mw`. -/
def query2Groups (plants : List Plant) : List (String × ℚ) :=
  let nuclear := plants.filter (fun p => decide (p.primary_fuel = "Nuclear"))
  ((nuclear.map (fun p => p.country_long)).dedup).map (fun c =>
    (c, msum ((nuclear.filter (fun p => decide (p.country_long = c))).map
      (fun p => p.capacity_mw))))

/-- An output row of QUERY 2. -/
structure Q2Row where
  country_long : String
  total_nuclear_capacity_mw : ℚ
deriving DecidableEq

/-- QUERY 2: nuclear capacity per country, rounded to two decimals,
sorted descending, limited to the top ten. -/
def query2 (plants : List Plant) : List Q2Row :=
  (sortD (fun a b => decide (b.total_nuclear_capacity_mw ≤ a.total_nuclear_capacity_mw))
    ((query2Groups plants).map (fun g =>
      { country_long := g.1, total_nuclear_capacity_mw := roundTo 2 g.2 }))).take 10

/-- QUERY 5 `$match` stage: nuclear plants whose two coordinates are not
null. -/
def query5Matched (plants : List Plant) : List Plant :=
  plants.filter (fun p =>
    decide (p.primary_fuel = "Nuclear" ∧ p.latitude ≠ none ∧ p.longitude ≠ none))

/-- The composite group key of QUERY 5, the two band labels computed by
its `$addFields` stage.  The preceding `$match` guarantees both
coordinates are numeric, so `getD 0` never supplies its default. -/
def q5key (p : Plant) : String × String :=
  (bandLabel (p.latitude.getD 0), bandLabel (p.longitude.getD 0))

/-- QUERY 5 `$group` stage: per band pair, the plant count, the `$sum` of
`capacity_mw` and the `$addToSet` of the countries. -/
def query5Groups (plants : List Plant) : List ((String × String) × ℕ × ℚ × List String) :=
  let m := query5Matched plants
  ((m.map q5key).dedup).map (fun k =>
    let g := m.filter (fun p => decide (q5key p = k))
    (k, g.length, msum (g.map (fun p => p.capacity_mw)),
      (g.map (fun p => p.country_long)).dedup))

/-- An output row of QUERY 5. -/
structure Q5Row where
  lat_band : String
  lon_band : String
  plant_count : ℕ
  total_capacity_mw : ℚ
  countries_in_band : String
deriving DecidableEq

/-- QUERY 5: group by 5°×5° geographic band, turn the country set into a
sorted comma-separated string, sort descending by total capacity. -/
def query5 (plants : List Plant) : List Q5Row :=
  sortD (fun a b => decide (b.total_capacity_mw ≤ a.total_capacity_mw))
    ((query5Groups plants).map (fun g =>
      { lat_band := g.1.1, lon_band := g.1.2, plant_count := g.2.1,
        total_capacity_mw := g.2.2.1,
        countries_in_band :=
          csvConcat (sortD (fun a b => decide (a ≤ b)) g.2.2.2) }))

theorem filter_decide_and {α : Type} (p q : α → Prop) [DecidablePred p]
    [DecidablePred q] (l : List α) :
    (l.filter (fun x => decide (p x))).filter (fun x => decide (q x))
      = l.filter (fun x => decide (p x ∧ q x)) := by
  rw [List.filter_filter]
  apply List.filter_congr
  intro x _
  by_cases hp : p x <;> by_cases hq : q x <;> simp [hp, hq]

/-- Sum of `capacity_mw` over only the rows where it is non-null: the
claim side of C5, written without the `$sum` accumulator. -/
def nonNullCapacitySum (l : List Plant) : ℚ :=
  ((l.filter (fun p => decide (p.capacity_mw ≠ none))).map
    (fun p => p.capacity_mw.getD 0)).sum

theorem msum_capacity (l : List Plant) :
    msum (l.map (fun p => p.capacity_mw)) = nonNullCapacitySum l :=
  msum_map_eq (fun p => p.capacity_mw) l

/-- Claim C5: in every sum over `capacity_mw` (query 1 per fuel, query 2
per country, query 5 per geo-band), rows whose `capacity_mw` is
absent/null contribute nothing: each group total equals the sum of
`capacity_mw` over only that group s non-null rows, the projected
query 1 row carries that total rounded to one decimal, and query 1 group
totals summed over all groups equal the dataset-wide sum of non-null
capacities. -/
theorem capacity_sums_skip_null (plants : List Plant) :
    (∀ g ∈ query1Groups plants,
        g.2.2 = nonNullCapacitySum
          (plants.filter (fun p => decide (p.primary_fuel = g.1))))
  ∧ ((query1Groups plants).map (fun g => g.2.2)).sum = nonNullCapacitySum plants
  ∧ (∀ r ∈ query1 plants, ∃ g ∈ query1Groups plants,
        r.fuel = g.1 ∧ r.total_capacity_mw = roundTo 1 g.2.2)
  ∧ (∀ g ∈ query2Groups plants,
        g.2 = nonNullCapacitySum (plants.filter
          (fun p => decide (p.primary_fuel = "Nuclear" ∧ p.country_long = g.1))))
  ∧ (∀ g ∈ query5Groups plants,
        g.2.2.1 = nonNullCapacitySum ((query5Matched plants).filter
          (fun p => decide (q5key p = g.1)))) := by
  refine ⟨?_, ?_, ?_, ?_, ?_⟩
  · intro g hg
    obtain ⟨fuel, _, rfl⟩ := List.mem_map.mp hg
    exact msum_capacity _
  · show ((((plants.map (fun p => p.primary_fuel)).dedup).map _).map _).sum = _
    rw [List.map_map]
    have := msum_groups (fun p : Plant => p.primary_fuel)
      (fun p => p.capacity_mw) ((plants.map (fun p => p.primary_fuel)).dedup)
      plants (List.nodup_dedup _)
      (fun x hx => List.mem_dedup.mpr (List.mem_map_of_mem _ hx))
    calc ((((plants.map (fun p => p.primary_fuel)).dedup).map
            ((fun g : String × ℕ × ℚ => g.2.2) ∘ fun fuel =>
              (fuel, (plants.filter (fun p => decide (p.primary_fuel = fuel))).length,
                msum ((plants.filter (fun p => decide (p.primary_fuel = fuel))).map
                  (fun p => p.capacity_mw))))).sum)
        = msum (plants.map (fun p => p.capacity_mw)) := this
      _ = nonNullCapacitySum plants := msum_capacity plants
  · intro r hr
    simp only [query1, mem_sortD] at hr
    obtain ⟨g, hg, rfl⟩ := List.mem_map.mp hr
    exact ⟨g, hg, rfl, rfl⟩
  · intro g hg
    obtain ⟨c, _, rfl⟩ := List.mem_map.mp hg
    show msum _ = _
    rw [msum_capacity, filter_decide_and]
  · intro g hg
    obtain ⟨k, _, rfl⟩ := List.mem_map.mp hg
    exact msum_capacity _

/-- Claim C8: the band lower bound is `floor (v / 5) * 5` with floor (not
truncation) semantics, so it bounds `v` from below within a width-5
window; the label is lower ++ °– ++ upper ++ ° with upper = lower + 5;
in particular latitude -3 falls in the band with lower bound -5. -/
theorem band_floor_semantics (v : ℚ) :
    bandLower v = ⌊v / 5⌋ * 5
  ∧ (bandLower v : ℚ) ≤ v ∧ v < (bandLower v : ℚ) + 5
  ∧ bandLabel v = toString (bandLower v) ++ "°–" ++ toString (bandLower v + 5) ++ "°"
  ∧ bandLower (-3) = -5 ∧ bandLabel (-3) = "-5°–0°" := by
  have h1 : ((⌊v / 5⌋ : ℚ)) ≤ v / 5 := Int.floor_le _
  have h2 : v / 5 < (⌊v / 5⌋ : ℚ) + 1 := Int.lt_floor_add_one _
  have hb : bandLower (-3 : ℚ) = -5 := by norm_num [bandLower]
  refine ⟨rfl, ?_, ?_, rfl, hb, ?_⟩
  · show ((⌊v / 5⌋ * 5 : ℤ) : ℚ) ≤ v
    push_cast
    linarith
  · show v < ((⌊v / 5⌋ * 5 : ℤ) : ℚ) + 5
    push_cast
    linarith
  · show toString (bandLower (-3 : ℚ)) ++ "°–"
        ++ toString (bandLower (-3 : ℚ) + 5) ++ "°" = "-5°–0°"
    rw [hb]
    rfl

/-- A record of the `world_nuclear_energy_generation` collection. -/
structure GenRow where
  Entity : String
  Year : ℤ
  electricity_from_nuclear_twh : Option ℚ
  share_of_electricity_pct : Option ℚ
deriving DecidableEq

/-- Step 1 of QUERY 3: the global `$avg` of `share_of_electricity_pct`
over the rows with `Year = 2023`. -/
def globalAvg (rows : List GenRow) : Option ℚ :=
  mavg ((rows.filter (fun r => decide (r.Year = 2023))).map
    (fun r => r.share_of_electricity_pct))

/-- The per-entity `$avg` of `share_of_electricity_pct` over the 2023
rows, as the `$group` stage of QUERY 3 computes it. -/
def entityAvg2023 (rows : List GenRow) (e : String) : Option ℚ :=
  mavg (((rows.filter (fun r => decide (r.Year = 2023))).filter
    (fun r => decide (r.Entity = e))).map (fun r => r.share_of_electricity_pct))

/-- QUERY 3 `$group` stage: one bucket per entity over the 2023 rows. -/
def query3Groups (rows : List GenRow) : List (String × Option ℚ) :=
  let y := rows.filter (fun r => decide (r.Year = 2023))
  ((y.map (fun r => r.Entity)).dedup).map (fun e => (e, entityAvg2023 rows e))

/-- An output row of QUERY 3. -/
structure Q3Row where
  Entity : String
  avg_nuclear_share : ℚ
deriving DecidableEq

/-- QUERY 3: keep the entities whose (unrounded) average share exceeds
the global average, round to two decimals at projection, sort
descending.  A null group average fails the `$gt` match; were the global
average itself null the scripts member access would not yield a number,
so that case is modelled as an empty result. -/
def query3 (rows : List GenRow) : List Q3Row :=
  match globalAvg rows with
  | none => []
  | some g =>
    sortD (fun a b => decide (b.avg_nuclear_share ≤ a.avg_nuclear_share))
      (((query3Groups rows).filter (fun p =>
          match p.2 with
          | some a => decide (g < a)
          | none => false)).map (fun p =>
        { Entity := p.1, avg_nuclear_share := roundTo 2 (p.2.getD 0) }))

/-- Two entities, one 2023 row each: the global average is 10, entity A
averages 10.001 (just above it) and entity B 9.999. -/
def q3ex : List GenRow :=
  [ { Entity := "A", Year := 2023, electricity_from_nuclear_twh := none,
      share_of_electricity_pct := some (10001/1000) },
    { Entity := "B", Year := 2023, electricity_from_nuclear_twh := none,
      share_of_electricity_pct := some (9999/1000) } ]

/-- Evaluation of QUERY 3 on the two-entity example. -/
theorem q3ex_eval :
    globalAvg q3ex = some 10
  ∧ query3 q3ex = [{ Entity := "A", avg_nuclear_share := 10 }] := by
  have hg : globalAvg q3ex = some 10 := by
    norm_num [globalAvg, q3ex, mavg, mcount, msum, List.filter]
  refine ⟨hg, ?_⟩
  have hA : entityAvg2023 q3ex "A" = some (10001/1000) := by
    norm_num [entityAvg2023, q3ex, mavg, mcount, msum, List.filter]
  have hB : entityAvg2023 q3ex "B" = some (9999/1000) := by
    norm_num [entityAvg2023, q3ex, mavg, mcount, msum, List.filter]
  have hround : roundTo 2 (10001/1000 : ℚ) = 10 := by
    have : ((10001 : ℚ)/1000) * 10 ^ 2 = 10001/10 := by norm_num
    have hfl : (⌊(10001 : ℚ)/10⌋ : ℤ) = 1000 := by norm_num
    norm_num [roundTo, roundHalfEven, this, hfl]
  simp only [q3ex] at hA hB
  simp only [query3, hg]
  norm_num [query3Groups, q3ex, List.filter, hA, hB, sortD, insertD, hround]

/-- Claim C6 counterexample: entity A passes the threshold filter with
its unrounded average 10.001, but the projected `avg_nuclear_share` of
its result row is rounded to 10.00, which is not strictly greater than
the threshold 10 that `globalAvg` holds. -/
theorem q3_rounded_not_above_threshold :
    globalAvg q3ex = some 10
  ∧ query3 q3ex = [{ Entity := "A", avg_nuclear_share := 10 }]
  ∧ ¬ (10 : ℚ) > 10 :=
  ⟨q3ex_eval.1, q3ex_eval.2, by norm_num⟩

/-- Claim C6 (amended): the threshold equals the average recomputed over
all 2023 rows, and every result row comes from an entity whose unrounded
2023 average is strictly greater than that threshold; the projected
`avg_nuclear_share` is that average rounded to two decimals, which can
fall back to or below the threshold. -/
theorem q3_threshold_on_unrounded (rows : List GenRow) (g : ℚ)
    (hg : globalAvg rows = some g) :
    globalAvg rows
      = mavg ((rows.filter (fun r => decide (r.Year = 2023))).map
          (fun r => r.share_of_electricity_pct))
  ∧ ∀ r ∈ query3 rows, ∃ a : ℚ,
      entityAvg2023 rows r.Entity = some a ∧ g < a
        ∧ r.avg_nuclear_share = roundTo 2 a := by
  refine ⟨rfl, ?_⟩
  intro r hr
  rw [query3, hg] at hr
  rw [mem_sortD] at hr
  obtain ⟨p, hp, rfl⟩ := List.mem_map.mp hr
  obtain ⟨hpg, hpf⟩ := List.mem_filter.mp hp
  obtain ⟨e, _, rfl⟩ := List.mem_map.mp hpg
  cases ha : entityAvg2023 rows e with
  | none => rw [ha] at hpf; simp at hpf
  | some a =>
    rw [ha] at hpf
    simp only [decide_eq_true_eq] at hpf
    exact ⟨a, rfl, hpf, rfl⟩

/-- Witness for C6: at the concrete two-entity input, the result row for
entity A satisfies the amended property with unrounded average 10.001. -/
theorem q3_threshold_on_unrounded_witness :
    ∃ a : ℚ, entityAvg2023 q3ex "A" = some a ∧ 10 < a
      ∧ (10 : ℚ) = roundTo 2 a := by
  have h := (q3_threshold_on_unrounded q3ex 10 q3ex_eval.1).2
    { Entity := "A", avg_nuclear_share := 10 }
    (by rw [q3ex_eval.2]; exact List.mem_singleton.mpr rfl)
  exact h

/-- QUERY 4 `$match` stage: years after 2015 and — as the script is
written — only the entity "Canada". -/
def q4Matched (rows : List GenRow) : List GenRow :=
  rows.filter (fun r => decide (2015 < r.Year ∧ r.Entity = "Canada"))

/-- QUERY 4 `$sort` stage: ascending by year. -/
def q4Sorted (rows : List GenRow) : List GenRow :=
  sortD (fun a b => decide (a.Year ≤ b.Year)) (q4Matched rows)

/-- The `$shift by -1` window of one partition already sorted by year:
each row paired with the previous rows generation, null for the first. -/
def shiftPrev (part : List GenRow) : List (GenRow × Option ℚ) :=
  part.zip (none :: part.map (fun r => r.electricity_from_nuclear_twh))

/-- QUERY 4 `$setWindowFields` stage: partition by entity, sort by year,
expose the previous rows generation. -/
def q4Window (rows : List GenRow) : List (GenRow × Option ℚ) :=
  let s := q4Sorted rows
  ((s.map (fun r => r.Entity)).dedup).flatMap (fun e =>
    shiftPrev (s.filter (fun r => decide (r.Entity = e))))

/-- QUERY 4 `$addFields` + positive-difference `$match` stages: the
year-over-year `$subtract` (null when there is no previous year) and the
filter keeping only strictly positive differences. -/
def q4Positive (rows : List GenRow) : List (GenRow × Option ℚ) :=
  ((q4Window rows).map (fun p =>
    (p.1, msub p.1.electricity_from_nuclear_twh p.2))).filter (fun p =>
      match p.2 with
      | some d => decide (0 < d)
      | none => false)

/-- An output row of QUERY 4. -/
structure Q4Row where
  Entity : String
  Year : ℤ
  total_nuclear_generation : Option ℚ
  generation_difference : Option ℚ
deriving DecidableEq

/-- QUERY 4: group per entity with `$max` of the difference and `$push`
of the docs, re-filter the docs equal to the maximum, unwind and
project. -/
def query4 (rows : List GenRow) : List Q4Row :=
  let pos := q4Positive rows
  (((pos.map (fun p => p.1.Entity)).dedup).map (fun e =>
    let docs := pos.filter (fun p => decide (p.1.Entity = e))
    let m := mmax (docs.map (fun p => p.2))
    (docs.filter (fun p => decide (p.2 = m))).map (fun p =>
      { Entity := p.1.Entity, Year := p.1.Year,
        total_nuclear_generation := p.1.electricity_from_nuclear_twh,
        generation_difference := p.2 }))).flatten

/-- Three years of Chinese generation with the 53.7 TWh increase in 2019
that the scripts own header comment reports as the leading result. -/
def chinaRows : List GenRow :=
  [ { Entity := "China", Year := 2017, electricity_from_nuclear_twh := some 248,
      share_of_electricity_pct := none },
    { Entity := "China", Year := 2018, electricity_from_nuclear_twh := some 295,
      share_of_electricity_pct := none },
    { Entity := "China", Year := 2019, electricity_from_nuclear_twh := some (3487/10),
      share_of_electricity_pct := none } ]

/-- The same numbers under the entity name "Canada". -/
def chinaRowsAsCanada : List GenRow :=
  chinaRows.map (fun r => { r with Entity := "Canada" })

/-- Claim C3: the first `$match` of QUERY 4 keeps only `Entity: "Canada"`,
so the China rows — whose 2019 increase the header comment itself
reports — produce no output at all, while the identical numbers under
the entity name Canada produce the expected argmax row. -/
theorem query4_drops_other_entities :
    query4 chinaRows = []
  ∧ query4 chinaRowsAsCanada =
      [ { Entity := "Canada", Year := 2019,
          total_nuclear_generation := some (3487/10),
          generation_difference := some (537/10) } ] := by
  constructor
  · rfl
  · have h : q4Matched chinaRowsAsCanada = chinaRowsAsCanada := by
      simp [q4Matched, chinaRowsAsCanada, chinaRows, List.filter]
    have hs : q4Sorted chinaRowsAsCanada = chinaRowsAsCanada := by
      simp [q4Sorted, h, chinaRowsAsCanada, chinaRows, sortD, insertD]
    have d1 : (295 : ℚ) - 248 = 47 := by norm_num
    have d2 : (3487/10 : ℚ) - 295 = 537/10 := by norm_num
    have hp1 : decide ((0 : ℚ) < 47) = true := by norm_num
    have hp2 : decide ((0 : ℚ) < 537/10) = true := by norm_num
    have hmax : max (47 : ℚ) (537/10) = 537/10 := by norm_num
    have hne : decide ((47 : ℚ) = 537/10) = false := by norm_num
    have heq : decide ((537/10 : ℚ) = 537/10) = true := by norm_num
    simp [query4, q4Positive, q4Window, hs, chinaRowsAsCanada, chinaRows,
      List.filter, shiftPrev, msub, mmax, d1, d2, hp1, hp2, hmax, hne, heq]

/-- A record of the `rates_death_from_energy_production_per_twh`
collection; `deaths_per_twh` models the field named
`Deaths per TWh of electricity production`. -/
structure DeathRateRow where
  Entity : String
  deaths_per_twh : Option ℚ
deriving DecidableEq

/-- QUERY 6 `$facet` nuclear branch: the `nuclear_deaths` values of the
rows whose entity is Nuclear. -/
def q6NuclearFacet (rows : List DeathRateRow) : List (Option ℚ) :=
  (rows.filter (fun r => decide (r.Entity = "Nuclear"))).map
    (fun r => r.deaths_per_twh)

/-- QUERY 6 `$facet` others branch: `(other_source, other_deaths)` of
every non-Nuclear row. -/
def q6OthersFacet (rows : List DeathRateRow) : List (String × Option ℚ) :=
  (rows.filter (fun r => decide (r.Entity ≠ "Nuclear"))).map
    (fun r => (r.Entity, r.deaths_per_twh))

/-- An output row of QUERY 6. -/
structure Q6Row where
  nuclear : String
  nuclear_deaths : Option ℚ
  other_source : String
  other_deaths : Option ℚ
  times_more_dangerous : Option ℚ
deriving DecidableEq

/-- QUERY 6: `$arrayElemAt ["$nuclear.nuclear_deaths", 0]` (missing when
the nuclear branch is empty, here merged with null), one combination per
other source with `$divide`, unwind, sort descending. -/
def query6 (rows : List DeathRateRow) : Except String (List Q6Row) :=
  let nd : Option ℚ := ((q6NuclearFacet rows).head?).join
  match mapE (fun o => (mdiv o.2 nd).map (fun t =>
      { nuclear := "Nuclear", nuclear_deaths := nd, other_source := o.1,
        other_deaths := o.2, times_more_dangerous := t })) (q6OthersFacet rows) with
  | Except.error e => Except.error e
  | Except.ok l =>
    Except.ok (sortD (fun a b =>
      bsonLe b.times_more_dangerous a.times_more_dangerous) l)

/-- QUERY 8 `$match` stage: nuclear plants with non-null real and
estimated 2017 generation. -/
def q8Matched (plants : List Plant) : List Plant :=
  plants.filter (fun p => decide (p.primary_fuel = "Nuclear"
    ∧ p.generation_gwh_2017 ≠ none ∧ p.estimated_generation_gwh_2017 ≠ none))

/-- An output row of QUERY 8. -/
structure Q8Row where
  country : String
  name : String
  real_generation : Option ℚ
  estimated_generation : Option ℚ
  absolute_error : Option ℚ
  percent_error : Option ℚ
deriving DecidableEq

/-- The `$addFields` + `$project` of QUERY 8 on one matched plant:
`absolute_error` is the rounded `$abs` of the `$subtract`, and
`percent_error` divides that absolute difference by the real generation
— an error when the real generation is the number zero. -/
def q8Project (p : Plant) : Except String Q8Row :=
  let real := p.generation_gwh_2017
  let est := p.estimated_generation_gwh_2017
  let absErr := (msub real est).map (fun q => |q|)
  match mdiv absErr real with
  | Except.error e => Except.error e
  | Except.ok d =>
    Except.ok
      { country := p.country, name := p.name,
        real_generation := real, estimated_generation := est,
        absolute_error := absErr.map (roundTo 2),
        percent_error := d.map (fun q => roundTo 2 (q * 100)) }

/-- QUERY 8: match, derive the error fields, sort descending by percent
error. -/
def query8 (plants : List Plant) : Except String (List Q8Row) :=
  match mapE q8Project (q8Matched plants) with
  | Except.error e => Except.error e
  | Except.ok l =>
    Except.ok (sortD (fun a b => bsonLe b.percent_error a.percent_error) l)

/-- A death-rate table whose Nuclear row carries the rate zero. -/
def q6ZeroInput : List DeathRateRow :=
  [ { Entity := "Nuclear", deaths_per_twh := some 0 },
    { Entity := "Coal", deaths_per_twh := some (246/10) } ]

/-- Claim C1 counterexample: with a zero nuclear death rate the
`$divide` of QUERY 6 raises an error that aborts the query — there is no
undefined/NaN-like marker row. -/
theorem q6_zero_denominator_errors :
    query6 q6ZeroInput = Except.error divideByZeroMsg := rfl

/-- A nuclear plant whose real 2017 generation is the number zero. -/
def q8ZeroPlant : Plant :=
  { country := "FRA", country_long := "France", name := "P0",
    primary_fuel := "Nuclear", capacity_mw := none, latitude := none,
    longitude := none, generation_gwh_2017 := some 0,
    estimated_generation_gwh_2017 := some 10 }

/-- Claim C1 (amended): when the denominator is missing (query 6 with no
Nuclear row) the `$divide` yields null and the query succeeds with a
null `times_more_dangerous` in every row; but when the denominator is
the number zero (query 6 nuclear rate 0, query 8 real generation 0) the
`$divide` raises an error aborting the whole query — in no case is a
zero silently emitted. -/
theorem divide_null_or_error (rows : List DeathRateRow) (plants : List Plant) :
    (q6NuclearFacet rows = [] →
      ∃ l, query6 rows = Except.ok l ∧ ∀ r ∈ l, r.times_more_dangerous = none)
  ∧ ((q6NuclearFacet rows).head? = some (some 0) →
      (∃ o ∈ q6OthersFacet rows, o.2 ≠ none) →
      query6 rows = Except.error divideByZeroMsg)
  ∧ (∀ p ∈ q8Matched plants, p.generation_gwh_2017 = some 0 →
      query8 plants = Except.error divideByZeroMsg) := by
  refine ⟨?_, ?_, ?_⟩
  · intro hnil
    rw [query6]
    have hnd : ((q6NuclearFacet rows).head?).join = none := by
      rw [hnil]; rfl
    rw [hnd]
    have hcongr := mapE_congr (l := q6OthersFacet rows)
      (f := fun o : String × Option ℚ => (mdiv o.2 none).map (fun t =>
        { nuclear := "Nuclear", nuclear_deaths := none, other_source := o.1,
          other_deaths := o.2, times_more_dangerous := t : Q6Row }))
      (g := fun o : String × Option ℚ => Except.ok
        { nuclear := "Nuclear", nuclear_deaths := none, other_source := o.1,
          other_deaths := o.2, times_more_dangerous := none : Q6Row })
      (fun o _ => by cases h : o.2 <;> simp [mdiv, h, Except.map])
    rw [hcongr, mapE_pure]
    refine ⟨_, rfl, ?_⟩
    intro r hr
    rw [mem_sortD] at hr
    obtain ⟨o, _, rfl⟩ := List.mem_map.mp hr
    rfl
  · intro hhead hex
    rw [query6]
    have hnd : ((q6NuclearFacet rows).head?).join = some 0 := by
      rw [hhead]; rfl
    rw [hnd]
    obtain ⟨o, ho, hne⟩ := hex
    have herr : mapE (fun o : String × Option ℚ => (mdiv o.2 (some 0)).map (fun t =>
        { nuclear := "Nuclear", nuclear_deaths := some 0, other_source := o.1,
          other_deaths := o.2, times_more_dangerous := t : Q6Row }))
        (q6OthersFacet rows) = Except.error divideByZeroMsg := by
      apply mapE_error
      · intro x _
        cases hx : x.2 with
        | none =>
          refine Or.inr
            ⟨{ nuclear := "Nuclear", nuclear_deaths := some 0,
               other_source := x.1, other_deaths := x.2,
               times_more_dangerous := none }, ?_⟩
          rw [hx]
          rfl
        | some v => exact Or.inl (by simp [mdiv, hx, Except.map, divideByZeroMsg])
      · refine ⟨o, ho, ?_⟩
        cases hx : o.2 with
        | none => exact absurd hx hne
        | some v => simp [mdiv, hx, Except.map, divideByZeroMsg]
    rw [herr]
  · intro p hp hzero
    rw [query8]
    have herr : mapE q8Project (q8Matched plants) = Except.error divideByZeroMsg := by
      apply mapE_error
      · intro x _
        rw [q8Project]
        cases hd : mdiv ((msub x.generation_gwh_2017
            x.estimated_generation_gwh_2017).map (fun q => |q|))
            x.generation_gwh_2017 with
        | error e =>
          left
          have : e = divideByZeroMsg := by
            revert hd
            cases (msub x.generation_gwh_2017
                x.estimated_generation_gwh_2017).map (fun q => |q|) with
            | none => intro hd; simp [mdiv] at hd
            | some a =>
              cases x.generation_gwh_2017 with
              | none => intro hd; simp [mdiv] at hd
              | some b =>
                by_cases hb : b = 0 <;> intro hd <;> simp [mdiv, hb] at hd
                exact hd.symm
          simp [hd, this]
        | ok d =>
          right
          refine
            ⟨{ country := x.country, name := x.name,
               real_generation := x.generation_gwh_2017,
               estimated_generation := x.estimated_generation_gwh_2017,
               absolute_error := ((msub x.generation_gwh_2017
                 x.estimated_generation_gwh_2017).map (fun q => |q|)).map (roundTo 2),
               percent_error := d.map (fun q => roundTo 2 (q * 100)) }, ?_⟩
          rfl
      · refine ⟨p, hp, ?_⟩
        have hest : p.estimated_generation_gwh_2017 ≠ none :=
          (of_decide_eq_true (List.mem_filter.mp hp).2).2.2
        rw [q8Project, hzero]
        cases he : p.estimated_generation_gwh_2017 with
        | none => exact absurd he hest
        | some e => simp [msub, mdiv]
    rw [herr]

/-- Witness for C1: the zero-generation plant makes QUERY 8 abort with
the divide-by-zero error. -/
theorem divide_null_or_error_witness :
    query8 [q8ZeroPlant] = Except.error divideByZeroMsg :=
  (divide_null_or_error [] [q8ZeroPlant]).2.2 q8ZeroPlant
    (by rw [q8Matched]; exact List.mem_filter.mpr ⟨List.mem_singleton.mpr rfl,
      by rw [q8ZeroPlant]; rfl⟩) rfl

/-- An entry of one QUERY 7 `$facet` branch after its `$group`,
`$match gt 0` and `$addFields` stages: `gwh` is the branch `$sum` and
`deaths` the hardcoded-rate estimate. -/
structure BranchRow where
  country : String
  country_long : String
  gwh : ℚ
  deaths : ℚ
deriving DecidableEq

/-- One `$facet` branch of QUERY 7: filter by fuel, group by the
composite key (country, country_long) summing
`estimated_generation_gwh_2017`, keep the groups whose sum is strictly
positive, derive deaths as `sum / 1000 * rate`. -/
def facetBranchQ7 (fuel : String) (rate : ℚ) (plants : List Plant) : List BranchRow :=
  let f := plants.filter (fun p => decide (p.primary_fuel = fuel))
  let keys := (f.map (fun p => (p.country, p.country_long))).dedup
  ((keys.map (fun k =>
      (k, msum ((f.filter (fun p =>
        decide ((p.country, p.country_long) = k))).map
          (fun p => p.estimated_generation_gwh_2017))))).filter
    (fun g => decide (0 < g.2))).map (fun g =>
    { country := g.1.1, country_long := g.1.2, gwh := g.2,
      deaths := g.2 / 1000 * rate })

/-- The nuclear branch, with the hardcoded rate 0.07. -/
def nuclearBranch (plants : List Plant) : List BranchRow :=
  facetBranchQ7 "Nuclear" (7/100) plants

/-- The solar branch, with the hardcoded rate 0.02. -/
def solarBranch (plants : List Plant) : List BranchRow :=
  facetBranchQ7 "Solar" (2/100) plants

/-- An output row of QUERY 7; the solar fields are missing (`none`) when
no solar entry matched the nuclear entrys country. -/
structure Q7Row where
  country : String
  country_long : String
  nuclear_gwh : ℚ
  solar_gwh : Option ℚ
  nuclear_deaths : ℚ
  solar_deaths : Option ℚ
deriving DecidableEq

/-- Step 2 of QUERY 7 on one nuclear entry: `$mergeObjects` of the entry
with the first solar entry of the same country (`$arrayElemAt 0` of the
`$filter`).  When there is none, `$arrayElemAt` is missing and
`$mergeObjects` ignores it, so the nuclear entry passes through with the
solar fields missing.  When there is one, its `_id` overwrites the
nuclear `_id`. -/
def q7Merge (sol : List BranchRow) (n : BranchRow) : Q7Row :=
  match (sol.filter (fun s => decide (s.country = n.country))).head? with
  | some s =>
    { country := s.country, country_long := s.country_long,
      nuclear_gwh := n.gwh, solar_gwh := some s.gwh,
      nuclear_deaths := n.deaths, solar_deaths := some s.deaths }
  | none =>
    { country := n.country, country_long := n.country_long,
      nuclear_gwh := n.gwh, solar_gwh := none,
      nuclear_deaths := n.deaths, solar_deaths := none }

/-- QUERY 7 step 2 over the whole nuclear branch. -/
def q7Combined (plants : List Plant) : List Q7Row :=
  (nuclearBranch plants).map (q7Merge (solarBranch plants))

/-- QUERY 7: facet, merge by country, unwind, project, sort descending
by nuclear generation. -/
def query7 (plants : List Plant) : List Q7Row :=
  sortD (fun a b => decide (b.nuclear_gwh ≤ a.nuclear_gwh)) (q7Combined plants)

/-- A single nuclear plant and no solar plant at all. -/
def q7NuclearOnly : List Plant :=
  [ { country := "FRA", country_long := "France", name := "P1",
      primary_fuel := "Nuclear", capacity_mw := none, latitude := none,
      longitude := none, generation_gwh_2017 := none,
      estimated_generation_gwh_2017 := some 100 } ]

/-- Claim C2 counterexample: a country present only in the nuclear
branch is not dropped — QUERY 7 emits its row with the solar fields
missing. -/
theorem q7_nuclear_only_emitted :
    query7 q7NuclearOnly =
      [ { country := "FRA", country_long := "France", nuclear_gwh := 100,
          solar_gwh := none, nuclear_deaths := 100 / 1000 * (7/100),
          solar_deaths := none } ] := by
  have hs : msum [some (100 : ℚ)] = 100 := by simp [msum]
  have hdec : decide ((0 : ℚ) < 100) = true := by norm_num
  have hnuc : nuclearBranch q7NuclearOnly =
      [ { country := "FRA", country_long := "France", gwh := 100,
          deaths := 100 / 1000 * (7/100) } ] := by
    simp [nuclearBranch, facetBranchQ7, q7NuclearOnly, List.filter, hs, hdec]
  have hsol : solarBranch q7NuclearOnly = [] := rfl
  simp [query7, q7Combined, q7Merge, hnuc, hsol, sortD, insertD, List.filter]

/-- Claim C2 (amended): QUERY 7 emits exactly one row per nuclear-branch
group; every output rows country comes from the nuclear branch (so
solar-only countries are dropped); a nuclear entry with no same-country
solar entry is emitted with the solar fields missing, and one with a
matching solar entry is merged with the first such entry. -/
theorem q7_recombination (plants : List Plant) :
    (query7 plants).length = (nuclearBranch plants).length
  ∧ (∀ r ∈ query7 plants, ∃ n ∈ nuclearBranch plants,
      r.nuclear_gwh = n.gwh ∧ r.country = n.country)
  ∧ (∀ n ∈ nuclearBranch plants,
      ((solarBranch plants).filter
        (fun s => decide (s.country = n.country))).head? = none →
      ∃ r ∈ query7 plants, r.country = n.country
        ∧ r.country_long = n.country_long ∧ r.nuclear_gwh = n.gwh
        ∧ r.solar_gwh = none ∧ r.solar_deaths = none)
  ∧ (∀ n ∈ nuclearBranch plants, ∀ s : BranchRow,
      ((solarBranch plants).filter
        (fun s2 => decide (s2.country = n.country))).head? = some s →
      ∃ r ∈ query7 plants, r.country = s.country
        ∧ r.country_long = s.country_long ∧ r.nuclear_gwh = n.gwh
        ∧ r.solar_gwh = some s.gwh ∧ r.solar_deaths = some s.deaths) := by
  refine ⟨?_, ?_, ?_, ?_⟩
  · rw [query7, length_sortD, q7Combined, List.length_map]
  · intro r hr
    rw [query7, mem_sortD] at hr
    obtain ⟨n, hn, rfl⟩ := List.mem_map.mp hr
    refine ⟨n, hn, ?_⟩
    rw [q7Merge]
    cases h : ((solarBranch plants).filter
        (fun s => decide (s.country = n.country))).head? with
    | none => exact ⟨rfl, rfl⟩
    | some s =>
      have hmem : s ∈ (solarBranch plants).filter
          (fun s => decide (s.country = n.country)) :=
        List.mem_of_mem_head? (by rw [h]; rfl)
      have := of_decide_eq_true (List.mem_filter.mp hmem).2
      exact ⟨rfl, this⟩
  · intro n hn h
    refine ⟨q7Merge (solarBranch plants) n, ?_, ?_⟩
    · rw [query7, mem_sortD, q7Combined]
      exact List.mem_map_of_mem _ hn
    · rw [q7Merge, h]
      exact ⟨rfl, rfl, rfl, rfl, rfl⟩
  · intro n hn s h
    refine ⟨q7Merge (solarBranch plants) n, ?_, ?_⟩
    · rw [query7, mem_sortD, q7Combined]
      exact List.mem_map_of_mem _ hn
    · rw [q7Merge, h]
      exact ⟨rfl, rfl, rfl, rfl, rfl⟩

/-- Membership of a country pair in a QUERY 7 facet branch is equivalent
to a strictly positive estimated-generation sum over that countrys
plants of the branch fuel. -/
theorem facetBranch_mem (fuel : String) (rate : ℚ) (plants : List Plant)
    (c cl : String) :
    (∃ b ∈ facetBranchQ7 fuel rate plants, b.country = c ∧ b.country_long = cl)
      ↔ 0 < msum ((plants.filter (fun p =>
          decide (p.primary_fuel = fuel ∧ p.country = c ∧ p.country_long = cl))).map
            (fun p => p.estimated_generation_gwh_2017)) := by
  have hpred : ∀ p : Plant,
      (decide ((p.country, p.country_long) = (c, cl)))
        = decide (p.country = c ∧ p.country_long = cl) := by
    intro p
    apply decide_eq_decide.mpr
    constructor
    · intro h
      exact ⟨congrArg Prod.fst h, congrArg Prod.snd h⟩
    · rintro ⟨h1, h2⟩
      rw [h1, h2]
  have hfilter :
      (plants.filter (fun p => decide (p.primary_fuel = fuel))).filter
        (fun p => decide ((p.country, p.country_long) = (c, cl)))
      = plants.filter (fun p =>
          decide (p.primary_fuel = fuel ∧ p.country = c ∧ p.country_long = cl)) := by
    rw [List.filter_congr (fun p _ => hpred p)]
    exact filter_decide_and (fun p => p.primary_fuel = fuel)
      (fun p => p.country = c ∧ p.country_long = cl) plants
  constructor
  · rintro ⟨b, hb, hc, hcl⟩
    rw [facetBranchQ7] at hb
    obtain ⟨g, hgf, rfl⟩ := List.mem_map.mp hb
    obtain ⟨hgm, hgpos⟩ := List.mem_filter.mp hgf
    obtain ⟨k, _, rfl⟩ := List.mem_map.mp hgm
    have hk : k = (c, cl) := by
      cases k with
      | mk k1 k2 => cases hc; cases hcl; rfl
    rw [hk] at hgpos
    have := of_decide_eq_true hgpos
    rwa [hfilter] at this
  · intro hpos
    have hne : plants.filter (fun p =>
        decide (p.primary_fuel = fuel ∧ p.country = c ∧ p.country_long = cl)) ≠ [] := by
      intro hnil
      rw [hnil] at hpos
      simp [msum] at hpos
    obtain ⟨p, hp⟩ : ∃ p, p ∈ plants.filter (fun p =>
        decide (p.primary_fuel = fuel ∧ p.country = c ∧ p.country_long = cl)) := by
      cases hl : plants.filter (fun p =>
          decide (p.primary_fuel = fuel ∧ p.country = c ∧ p.country_long = cl)) with
      | nil => exact absurd hl hne
      | cons a t => exact ⟨a, hl ▸ List.mem_cons_self a t⟩
    obtain ⟨hpl, hpp⟩ := List.mem_filter.mp hp
    obtain ⟨hfuel, hc, hcl⟩ := of_decide_eq_true hpp
    have hkmem : (c, cl) ∈ ((plants.filter (fun p =>
        decide (p.primary_fuel = fuel))).map
          (fun p => (p.country, p.country_long))).dedup := by
      rw [List.mem_dedup]
      refine List.mem_map.mpr ⟨p, ?_, by rw [hc, hcl]⟩
      exact List.mem_filter.mpr ⟨hpl, decide_eq_true hfuel⟩
    refine ⟨{ country := c, country_long := cl,
              gwh := msum (((plants.filter (fun p =>
                decide (p.primary_fuel = fuel))).filter (fun p =>
                  decide ((p.country, p.country_long) = (c, cl)))).map
                    (fun p => p.estimated_generation_gwh_2017)),
              deaths := msum (((plants.filter (fun p =>
                decide (p.primary_fuel = fuel))).filter (fun p =>
                  decide ((p.country, p.country_long) = (c, cl)))).map
                    (fun p => p.estimated_generation_gwh_2017)) / 1000 * rate },
      ?_, rfl, rfl⟩
    rw [facetBranchQ7]
    refine List.mem_map.mpr ⟨((c, cl), msum (((plants.filter (fun p =>
      decide (p.primary_fuel = fuel))).filter (fun p =>
        decide ((p.country, p.country_long) = (c, cl)))).map
          (fun p => p.estimated_generation_gwh_2017))), ?_, rfl⟩
    refine List.mem_filter.mpr ⟨List.mem_map.mpr ⟨(c, cl), hkmem, rfl⟩, ?_⟩
    apply decide_eq_true
    rwa [hfilter]

/-- Claim C9: a country pair appears in the nuclear (resp. solar) facet
branch of QUERY 7 exactly when the `$sum` of its nuclear (resp. solar)
plants estimated 2017 generation is strictly positive; a zero or
entirely absent estimated generation excludes it. -/
theorem q7_branch_strict_positive (plants : List Plant) (c cl : String) :
    ((∃ b ∈ nuclearBranch plants, b.country = c ∧ b.country_long = cl)
      ↔ 0 < msum ((plants.filter (fun p =>
          decide (p.primary_fuel = "Nuclear" ∧ p.country = c ∧ p.country_long = cl))).map
            (fun p => p.estimated_generation_gwh_2017)))
  ∧ ((∃ b ∈ solarBranch plants, b.country = c ∧ b.country_long = cl)
      ↔ 0 < msum ((plants.filter (fun p =>
          decide (p.primary_fuel = "Solar" ∧ p.country = c ∧ p.country_long = cl))).map
            (fun p => p.estimated_generation_gwh_2017))) :=
  ⟨facetBranch_mem "Nuclear" (7/100) plants c cl,
   facetBranch_mem "Solar" (2/100) plants c cl⟩

/-- A record of the `uranium_production_summary_us` collection: the two
numeric-as-text fields model `Mine production of uranium` and
`Employment`. -/
structure UraniumProdRow where
  Year : ℤ
  mine_production_of_uranium : String
  employment : String
deriving DecidableEq

/-- A record of the `us_nuclear_generating_statistics_1971_2021`
collection; `nuclear_generation` models the `NUCLEAR GENERATION` field. -/
structure USGenRow where
  YEAR : ℤ
  nuclear_generation : Option ℚ
deriving DecidableEq

/-- The regex `^[0-9.]+$` of the production field: one or more
characters, each a digit or a dot. -/
def matchesDigitsDot (s : String) : Bool :=
  !s.data.isEmpty && s.data.all (fun c => c.isDigit || c == '.')

/-- The regex `^[0-9]+$` of the employment field: one or more digits. -/
def matchesDigits (s : String) : Bool :=
  !s.data.isEmpty && s.data.all (fun c => c.isDigit)

/-- Value of a digit string. -/
def digitsVal (l : List Char) : ℕ :=
  l.foldl (fun acc c => 10 * acc + (c.toNat - 48)) 0

/-- The error message of a numeric cast given an unparsable string. -/
def numParseErrMsg : String := "Failed to parse number in $convert"

/-- The error message of `$toInt` on a value outside the 32-bit range. -/
def intRangeErrMsg : String := "Out of bounds coercing to integral value"

/-- `$toString` on the regex-guarded digits-and-dot language: parses when
there is at most one dot and at least one digit, raises otherwise (for
example on 1.2.3, which the production regex nevertheless accepts). -/
def toDoubleStr (s : String) : Except String ℚ :=
  if (s.data.filter (fun c => c == '.')).length ≤ 1
      ∧ s.data.any (fun c => c.isDigit) = true
      ∧ s.data.all (fun c => c.isDigit || c == '.') = true then
    let intPart := s.data.takeWhile (fun c => !(c == '.'))
    let fracPart := (s.data.dropWhile (fun c => !(c == '.'))).drop 1
    Except.ok ((digitsVal intPart : ℚ)
      + (digitsVal fracPart : ℚ) / 10 ^ fracPart.length)
  else Except.error numParseErrMsg

/-- `$toInt` on a digits-only string: errors outside the 32-bit range. -/
def toIntStr (s : String) : Except String ℤ :=
  if matchesDigits s = true then
    if digitsVal s.data < 2 ^ 31 then Except.ok (digitsVal s.data : ℤ)
    else Except.error intRangeErrMsg
  else Except.error numParseErrMsg

/-- The `production_million_lbs` projection of QUERY 9: `$toDouble` when
the strict pattern matches, null otherwise. -/
def prodField (p : UraniumProdRow) : Except String (Option ℚ) :=
  if matchesDigitsDot p.mine_production_of_uranium then
    (toDoubleStr p.mine_production_of_uranium).map some
  else Except.ok none

/-- The `employees` projection of QUERY 9: `$toInt` when the digits-only
pattern matches, null otherwise. -/
def empField (p : UraniumProdRow) : Except String (Option ℤ) :=
  if matchesDigits p.employment then
    (toIntStr p.employment).map some
  else Except.ok none

/-- QUERY 9 `$lookup` + `$unwind`: the inner equality join on
`Year = YEAR`; a production row with no matching year contributes no
output pair. -/
def lookupUnwind9 (prods : List UraniumProdRow) (gens : List USGenRow) :
    List (UraniumProdRow × USGenRow) :=
  prods.flatMap (fun p =>
    (gens.filter (fun g => decide (g.YEAR = p.Year))).map (fun g => (p, g)))

/-- An output row of QUERY 9. -/
structure Q9Row where
  Year : ℤ
  production_million_lbs : Option ℚ
  employees : Option ℤ
  generation_mwh : Option ℚ
deriving DecidableEq

/-- The `$project` of QUERY 9 on one joined pair. -/
def q9Project (pg : UraniumProdRow × USGenRow) : Except String Q9Row :=
  match prodField pg.1 with
  | Except.error e => Except.error e
  | Except.ok prod =>
    match empField pg.1 with
    | Except.error e => Except.error e
    | Except.ok emp =>
      Except.ok
        { Year := pg.1.Year, production_million_lbs := prod,
          employees := emp, generation_mwh := pg.2.nuclear_generation }

/-- QUERY 9: join by year, project with the regex-guarded casts, sort
descending by year. -/
def query9 (prods : List UraniumProdRow) (gens : List USGenRow) :
    Except String (List Q9Row) :=
  match mapE q9Project (lookupUnwind9 prods gens) with
  | Except.error e => Except.error e
  | Except.ok l => Except.ok (sortD (fun a b => decide (b.Year ≤ a.Year)) l)

/-- A production row whose text 1.2.3 matches the regex `^[0-9.]+$` yet
is not a number. -/
def q9BadProd : List UraniumProdRow :=
  [ { Year := 2000, mine_production_of_uranium := "1.2.3", employment := "100" } ]

/-- A generation row for the same year. -/
def q9Gens : List USGenRow := [ { YEAR := 2000, nuclear_generation := some 5 } ]

/-- Claim C4 counterexample: the text 1.2.3 passes the strict regex of
the production field, so `$toDouble` runs — and fails, aborting QUERY 9
with a parse error instead of substituting null. -/
theorem q9_regex_pass_still_fails :
    query9 q9BadProd q9Gens = Except.error numParseErrMsg := rfl

/-- Claim C4 (amended): a field value that fails its strict regex makes
the projected field null without any error, and a production row whose
year matches no generation row is dropped by the inner join; but a value
that passes the regex can still make the cast — and the whole query —
fail (for example 1.2.3). -/
theorem q9_null_on_regex_fail (p : UraniumProdRow) (gens : List USGenRow)
    (prods : List UraniumProdRow) :
    (matchesDigitsDot p.mine_production_of_uranium = false →
      prodField p = Except.ok none)
  ∧ (matchesDigits p.employment = false → empField p = Except.ok none)
  ∧ ((∀ g ∈ gens, g.YEAR ≠ p.Year) →
      ∀ pr ∈ lookupUnwind9 prods gens, pr.1 ≠ p) := by
  refine ⟨?_, ?_, ?_⟩
  · intro h
    simp [prodField, h]
  · intro h
    simp [empField, h]
  · intro h pr hpr heq
    rw [lookupUnwind9] at hpr
    obtain ⟨p2, _, hpr2⟩ := List.mem_flatMap.mp hpr
    obtain ⟨g, hg, rfl⟩ := List.mem_map.mp hpr2
    have hgy : g.YEAR = p2.Year := of_decide_eq_true (List.mem_filter.mp hg).2
    have : p2 = p := heq
    exact h g (List.mem_filter.mp hg).1 (by rw [hgy, this])

/-- Claim C10: the employment field is parsed with the digits-only
pattern, stricter than the digits-and-dot production pattern: any
employment text containing a dot or any other non-digit character
projects a null `employees`, never an error; and the dot that the
production pattern accepts is exactly what the employment pattern
rejects. -/
theorem q9_employees_integer_only (p : UraniumProdRow) :
    (p.employment.data.any (fun c => !c.isDigit) = true →
      empField p = Except.ok none)
  ∧ (matchesDigitsDot "3400.0" = true ∧ matchesDigits "3400.0" = false) := by
  refine ⟨?_, by decide, by decide⟩
  intro h
  obtain ⟨c, hc, hcd⟩ := List.any_eq_true.mp h
  have hm : matchesDigits p.employment = false := by
    rw [matchesDigits]
    have : p.employment.data.all (fun c => c.isDigit) = false := by
      apply List.all_eq_false.mpr
      exact ⟨c, hc, by simpa using hcd⟩
    rw [this, Bool.and_false]
  rw [empField, hm]
  rfl

/-- Witness for C10: the numeric text 3400.0 still projects a null
`employees`. -/
theorem q9_employees_integer_only_witness :
    empField { Year := 2000, mine_production_of_uranium := "9.4",
               employment := "3400.0" } = Except.ok none :=
  (q9_employees_integer_only _).1 (by decide)

/-- A record of the `uranium_purchase_price_us` collection;
`total_purchased` models the `Total purchased` field and `delivery_year`
the `Delivery year` field. -/
structure PriceRow where
  delivery_year : ℤ
  total_purchased : Option ℚ
deriving DecidableEq

/-- An output row of QUERY 10. -/
structure Q10Row where
  year : ℤ
  nuclear_generation : ℚ
  uranium_needed_pounds : ℚ
  uranium_price_usd_per_lb : ℚ
  total_uranium_cost_usd : ℚ
deriving DecidableEq

/-- QUERY 10 `$lookup` + `$unwind`: inner join on
`YEAR = Delivery year`. -/
def lookupUnwind10 (gens : List USGenRow) (prices : List PriceRow) :
    List (USGenRow × PriceRow) :=
  gens.flatMap (fun g =>
    (prices.filter (fun pr => decide (pr.delivery_year = g.YEAR))).map
      (fun pr => (g, pr)))

/-- QUERY 10 `$match` stage: both joined values non-null. -/
def q10Matched (gens : List USGenRow) (prices : List PriceRow) :
    List (USGenRow × PriceRow) :=
  (lookupUnwind10 gens prices).filter (fun gp =>
    decide (gp.1.nuclear_generation ≠ none ∧ gp.2.total_purchased ≠ none))

/-- QUERY 10: join, filter nulls, project the derived uranium quantity
and cost — each `$round` applied to a product of unrounded values — and
sort descending by year. -/
def query10 (gens : List USGenRow) (prices : List PriceRow) : List Q10Row :=
  sortD (fun a b => decide (b.year ≤ a.year))
    ((q10Matched gens prices).map (fun gp =>
      { year := gp.1.YEAR,
        nuclear_generation := gp.1.nuclear_generation.getD 0,
        uranium_needed_pounds :=
          roundTo 2 (gp.1.nuclear_generation.getD 0 * (7/1000)),
        uranium_price_usd_per_lb := gp.2.total_purchased.getD 0,
        total_uranium_cost_usd :=
          roundTo 2 (gp.1.nuclear_generation.getD 0 * (7/1000)
            * gp.2.total_purchased.getD 0) }))

/-- Claim C7: every QUERY 10 output row derives
`total_uranium_cost_usd` by rounding the product of the unrounded
uranium quantity with the price — the 2-decimal rounding of
`uranium_needed_pounds` never feeds the cost computation. -/
theorem q10_rounds_only_at_projection (gens : List USGenRow)
    (prices : List PriceRow) :
    ∀ r ∈ query10 gens prices,
      r.total_uranium_cost_usd
          = roundTo 2 (r.nuclear_generation * (7/1000) * r.uranium_price_usd_per_lb)
        ∧ r.uranium_needed_pounds = roundTo 2 (r.nuclear_generation * (7/1000)) := by
  intro r hr
  rw [query10, mem_sortD] at hr
  obtain ⟨gp, _, rfl⟩ := List.mem_map.mp hr
  exact ⟨rfl, rfl⟩

/-- One generation row and one price row for the witness. -/
def q10ExGens : List USGenRow := [ { YEAR := 2020, nuclear_generation := some 1000 } ]

/-- One price row for the witness. -/
def q10ExPrices : List PriceRow := [ { delivery_year := 2020, total_purchased := some 33 } ]

/-- Witness for C7: at 1000 MWh and 33 USD/lb the output row is
(2020, 1000, 7, 33, 231) and its cost field equals the rounded product
of the unrounded quantity with the price. -/
theorem q10_rounds_only_at_projection_witness :
    (231 : ℚ) = roundTo 2 (1000 * (7/1000) * 33)
  ∧ (7 : ℚ) = roundTo 2 (1000 * (7/1000)) := by
  have hneed : roundTo 2 ((1000 : ℚ) * (7/1000)) = 7 := by
    have h1 : ((1000 : ℚ) * (7/1000)) * 10 ^ 2 = 700 := by norm_num
    have h2 : roundHalfEven (700 : ℚ) = 700 := by
      norm_num [roundHalfEven]
    norm_num [roundTo, h1, h2]
  have hcost : roundTo 2 ((1000 : ℚ) * (7/1000) * 33) = 231 := by
    have h1 : ((1000 : ℚ) * (7/1000) * 33) * 10 ^ 2 = 23100 := by norm_num
    have h2 : roundHalfEven (23100 : ℚ) = 23100 := by
      norm_num [roundHalfEven]
    norm_num [roundTo, h1, h2]
  have hq : query10 q10ExGens q10ExPrices =
      [ { year := 2020, nuclear_generation := 1000, uranium_needed_pounds := 7,
          uranium_price_usd_per_lb := 33, total_uranium_cost_usd := 231 } ] := by
    simp [query10, q10Matched, lookupUnwind10, q10ExGens, q10ExPrices,
      List.filter, sortD, insertD, hneed, hcost]
  have h := q10_rounds_only_at_projection q10ExGens q10ExPrices
    { year := 2020, nuclear_generation := 1000, uranium_needed_pounds := 7,
      uranium_price_usd_per_lb := 33, total_uranium_cost_usd := 231 }
    (by rw [hq]; exact List.mem_singleton.mpr rfl)
  exact ⟨h.1, h.2⟩

end EnergyQueries
